import Mathlib

/-!
# SplitPay backend — shallow embedding and verification

This file embeds the SplitPay escrow engine (`src/main.py`, `src/schemas.py`)
in Lean 4 and settles the specification claims about it.

Modelling conventions:
- Python floats carrying money amounts and percentages become `ℚ`.
- MongoDB's `escrow` collection becomes an association list `Store`
  (`List (Nat × Escrow)`); `find_one`/`update_one`/`insert_one` become
  `findOne`/`updateOne`/`create_document`.
- `HTTPException(status_code, detail)` and pydantic validation failures
  become the `ApiError` type; a raised exception in a handler becomes an
  `Except.error` return, so an error structurally performs no store write
  (as in the source, where `raise` precedes every write on error paths).
- Timestamps (`datetime.now`) become an explicit `now : Nat` argument.
-/

set_option maxRecDepth 4000

namespace SplitPay

/-- `currency` enumeration from `schemas.py` (`Literal["USD","USDC","USDT","ETH","BTC"]`). -/
inductive Currency where
  | USD | USDC | USDT | ETH | BTC
deriving DecidableEq, Repr

/-- `chain` enumeration from `schemas.py`. -/
inductive Chain where
  | ethereum | polygon | solana | bitcoin | testnet
deriving DecidableEq, Repr

/-- `status` enumeration from `schemas.py`
(`Literal["pending","funded","releasable","released","cancelled"]`). -/
inductive Status where
  | pending | funded | releasable | released | cancelled
deriving DecidableEq, Repr

/-- `Recipient` model from `schemas.py`. -/
structure Recipient where
  email : String
  percentage : ℚ
  wallet : Option String := none
  confirmed : Bool := false
deriving DecidableEq, Repr

/-- `Escrow` model from `schemas.py`; `updated_at` is written by
`confirm_escrow` into the schemaless Mongo document, so it appears here
as an optional timestamp. -/
structure Escrow where
  title : String
  description : Option String := none
  payer_email : String
  total_amount : ℚ
  currency : Currency := .USDC
  chain : Chain := .testnet
  recipients : List Recipient
  payer_confirmed : Bool := false
  status : Status := .funded
  updated_at : Option Nat := none
deriving DecidableEq, Repr

/-- Errors raised by the handlers: `HTTPException(status_code, detail)`,
or a pydantic validation failure raised while constructing an `Escrow`
(named by the offending field). -/
inductive ApiError where
  | http (status_code : Nat) (detail : String)
  | pydanticValidation (field : String)
deriving DecidableEq, Repr

/-- The `escrow` Mongo collection: documents keyed by their object id
(modelled as `Nat`). -/
abbrev Store : Type := List (Nat × Escrow)

/-- Mongo `find_one({"_id": oid})` on the collection. -/
def findOne (st : Store) (i : Nat) : Option Escrow :=
  (List.find? (fun p => p.1 == i) st).map (·.2)

/-- Mongo `update_one({"_id": oid}, {"$set": ...})`, with the merged
document given explicitly. -/
def updateOne (st : Store) (i : Nat) (d : Escrow) : Store :=
  st.map (fun p => if p.1 == i then (i, d) else p)

/-- A fresh object id for an insert: one more than the largest id in use. -/
def freshId (st : Store) : Nat :=
  (st.map (·.1)).foldr max 0 + 1

/-- `create_document("escrow", doc)` from `database.py`.
Modelled from the spec: `database.py` is not under `src/`; spec §6 gives
the collaborator interface `insert(collection, doc) -> id`, modelled as
appending the document under a fresh opaque id and returning that id. -/
def create_document (st : Store) (d : Escrow) : Store × Nat :=
  (st ++ [(freshId st, d)], freshId st)

/-- Shape of an escrow that `list_escrows` matches against the Mongo
query `{"$or": [{"payer_email": email}, {"recipients.email": email}]}`:
the payer's email equals the filter, or some recipient's does. -/
def escrowMatches (d : Escrow) (email : String) : Bool :=
  d.payer_email == email || d.recipients.any (fun r => r.email == email)

/-- `get_documents("escrow", filter_query, limit)` from `database.py`.
Modelled from the spec: `database.py` is not under `src/`; spec §6 gives
`find(collection, filter, limit) -> sequence of doc`, modelled as
filtering the stored sequence by the query predicate (the `$or` query
built in `list_escrows`, or no filter) and returning at most `limit`
documents in store order. -/
def get_documents (st : Store) (email : Option String) (limit : Nat) :
    List (Nat × Escrow) :=
  (match email with
   | none => st
   | some e => st.filter (fun p => escrowMatches p.2 e)).take limit

/-! ## Escrow engine handlers (`src/main.py`) -/

/-- Request body of `POST /api/escrows` (`CreateEscrowRequest` in
`main.py`); `recipients` are `Recipient` values, whose `confirmed` field
the request schema accepts (defaulting to `false`). -/
structure CreateEscrowRequest where
  title : String
  description : Option String := none
  payer_email : String
  total_amount : ℚ
  currency : Currency := .USDC
  chain : Chain := .testnet
  recipients : List Recipient
deriving DecidableEq, Repr

/-- The floating tolerance `1e-6` used by `create_escrow`. -/
def pctTolerance : ℚ := 1 / 1000000

/-- Sum of the recipients' percentages (`sum(r.percentage for r in ...)`). -/
def sumPct (recs : List Recipient) : ℚ :=
  (recs.map (·.percentage)).sum

/-- Pydantic validation performed when `Escrow(...)` is constructed:
`total_amount: condecimal(gt=0)` (`schemas.py`); the enumerated
`currency`/`chain` constraints are carried by the `Currency`/`Chain`
types themselves. On success, the constructed document. -/
def mkEscrow (title : String) (description : Option String)
    (payer_email : String) (total_amount : ℚ) (currency : Currency)
    (chain : Chain) (recipients : List Recipient) : Except ApiError Escrow :=
  if 0 < total_amount then
    .ok { title := title, description := description,
          payer_email := payer_email, total_amount := total_amount,
          currency := currency, chain := chain, recipients := recipients,
          payer_confirmed := false, status := .funded, updated_at := none }
  else
    .error (.pydanticValidation "total_amount")

/-- `create_escrow` (`POST /api/escrows`, main.py lines 69-90), the pure
part: validate the percentage sum, then build the escrow document. -/
def create_escrow (payload : CreateEscrowRequest) : Except ApiError Escrow :=
  if |sumPct payload.recipients - 100| > pctTolerance then
    .error (.http 400 "Recipient percentages must add up to 100")
  else
    mkEscrow payload.title payload.description payload.payer_email
      payload.total_amount payload.currency payload.chain payload.recipients

/-- `create_escrow` including the `create_document` insert: on success
the new store and the inserted id; on error nothing is written. -/
def create_escrow_api (payload : CreateEscrowRequest) (st : Store) :
    Except ApiError (Store × Nat) :=
  (create_escrow payload).map (fun d => create_document st d)

/-- `list_escrows` (`GET /api/escrows`, main.py lines 93-105): the Mongo
`$or` filter when an email is given, limit 50. -/
def list_escrows (email : Option String) (st : Store) : List (Nat × Escrow) :=
  get_documents st email 50

/-- Mark every recipient whose email equals the actor as confirmed
(the `for r in recs` loop of `confirm_escrow`, main.py lines 134-137). -/
def markRecipients (recs : List Recipient) (actor : String) : List Recipient :=
  recs.map (fun r => if r.email == actor then { r with confirmed := true } else r)

/-- The actor-resolution step of `confirm_escrow` (main.py lines
126-141): payer first, otherwise every matching recipient, otherwise
HTTP 400 and no mutation; `updated_at` refreshed on success. -/
def confirmFlags (doc : Escrow) (actor : String) (now : Nat) :
    Except ApiError Escrow :=
  if actor == doc.payer_email then
    .ok { doc with payer_confirmed := true, updated_at := some now }
  else if doc.recipients.any (fun r => r.email == actor) then
    .ok { doc with recipients := markRecipients doc.recipients actor,
                   updated_at := some now }
  else
    .error (.http 400 "Actor not part of this escrow")

/-- The status recomputation of `confirm_escrow` (main.py line 148):
`releasable` when the payer and all recipients are confirmed, otherwise
the stored status. -/
def statusAfter (doc : Escrow) : Status :=
  if doc.payer_confirmed && doc.recipients.all (fun r => r.confirmed) then
    .releasable
  else
    doc.status

/-- `confirm_escrow` (`POST /api/escrows/{id}/confirm`, main.py lines
112-152): find the document, apply the actor's flag, write it, re-read,
recompute the status and write it back when it changed.  Returns the new
store and the status reported to the caller.  (The inner `none` branch of
the re-read is unreachable: the document was just written.) -/
def confirm_escrow (st : Store) (i : Nat) (actor : String) (now : Nat) :
    Except ApiError (Store × Status) :=
  match findOne st i with
  | none => .error (.http 404 "Escrow not found")
  | some doc =>
    match confirmFlags doc actor now with
    | .error e => .error e
    | .ok doc1 =>
      let st1 := updateOne st i doc1
      match findOne st1 i with
      | none => .error (.http 404 "Escrow not found")
      | some doc2 =>
        let newStatus := statusAfter doc2
        if newStatus = doc2.status then
          .ok (st1, newStatus)
        else
          .ok (updateOne st1 i { doc2 with status := newStatus }, newStatus)

/-- `release_escrow` (`POST /api/escrows/{id}/release`, main.py lines
155-170): 404 when missing, 400 unless the status is exactly
`releasable`, otherwise set it to `released`. -/
def release_escrow (st : Store) (i : Nat) : Except ApiError (Store × Status) :=
  match findOne st i with
  | none => .error (.http 404 "Escrow not found")
  | some doc =>
    if doc.status ≠ Status.releasable then
      .error (.http 400 "Escrow is not yet releasable")
    else
      .ok (updateOne st i { doc with status := .released }, .released)

/-- Request body of `POST /api/p2p` (`P2PCreateRequest` in main.py). -/
structure P2PCreateRequest where
  payer_email : String
  recipient_email : String
  amount : ℚ
  currency : Currency := .USDC
  chain : Chain := .testnet
  title : Option String := some "P2P Payment"
  description : Option String := none
deriving DecidableEq, Repr

/-- Python's `payload.title or "P2P Payment"`: `None` and the empty
string are falsy, so both fall back to the default title. -/
def titleOrDefault (t : Option String) : String :=
  match t with
  | none => "P2P Payment"
  | some s => if s = "" then "P2P Payment" else s

/-- `create_p2p_escrow` (`POST /api/p2p`, main.py lines 184-199), the
pure part: build an escrow with a single 100% recipient directly. -/
def create_p2p_escrow (payload : P2PCreateRequest) : Except ApiError Escrow :=
  mkEscrow (titleOrDefault payload.title) payload.description
    payload.payer_email payload.amount payload.currency payload.chain
    [{ email := payload.recipient_email, percentage := 100,
       wallet := none, confirmed := false }]

/-- `create_p2p_escrow` including the `create_document` insert. -/
def create_p2p_escrow_api (payload : P2PCreateRequest) (st : Store) :
    Except ApiError (Store × Nat) :=
  (create_p2p_escrow payload).map (fun d => create_document st d)

/-! ## Telegram webhook (`src/main.py` lines 202-344)

String primitives (`str.strip`, `str.split`, `str.startswith`) are
embedded character-wise so that they compute in the kernel. -/

/-- Helper for `wsSplit`: walk the characters, accumulating the current
token (in reverse). -/
def wsSplitAux : List Char → List Char → List String
  | [], cur => if cur = [] then [] else [String.mk cur.reverse]
  | c :: cs, cur =>
    if c.isWhitespace then
      if cur = [] then wsSplitAux cs []
      else String.mk cur.reverse :: wsSplitAux cs []
    else wsSplitAux cs (c :: cur)

/-- Python's `str.split()` with no argument: split on runs of
whitespace, discarding empty tokens. -/
def wsSplit (s : String) : List String :=
  wsSplitAux s.data []

/-- Python's `str.strip()`: drop leading and trailing whitespace. -/
def sTrim (s : String) : String :=
  String.mk (((s.data.dropWhile Char.isWhitespace).reverse.dropWhile
    Char.isWhitespace).reverse)

/-- Python's `str.startswith(p)`. -/
def sStartsWith (s p : String) : Bool :=
  p.data.isPrefixOf s.data

/-- Parse a token made of decimal digits (used for the opaque escrow
ids appearing in chat commands, standing in for `ObjectId(...)`). -/
def parseNatTok (s : String) : Option Nat :=
  if s.data ≠ [] ∧ s.data.all Char.isDigit then
    some (s.data.foldl (fun n c => n * 10 + (c.toNat - '0'.toNat)) 0)
  else none

/-- `TelegramProfile` model from `schemas.py`.  The `/link` handler
stores `parts[1]` verbatim with a raw `$set`, bypassing the `EmailStr`
validation, so `email` is a plain optional string here. -/
structure TelegramProfile where
  chat_id : Int
  username : Option String := none
  email : Option String := none
  wallet : Option String := none
deriving DecidableEq, Repr

/-- A Telegram message as far as the webhook reads it:
`message["chat"]["id"]`, `message["text"]` and `message["from"]["username"]`. -/
structure TgMessage where
  chat_id : Int
  text : String := ""
  username : Option String := none
deriving DecidableEq, Repr

/-- A Telegram update: `update.get("message") or update.get("edited_message")`. -/
structure TgUpdate where
  message : Option TgMessage := none
  edited_message : Option TgMessage := none
deriving DecidableEq, Repr

/-- The webhook's acknowledgment body: `{"ok": True}` with an optional
`"message"` field. -/
structure WebhookResp where
  ok : Bool
  message : Option String := none
deriving DecidableEq, Repr

/-- The persistent state the webhook touches: the `escrow` and
`telegramprofile` collections. -/
structure BotState where
  escrows : Store
  profiles : List TelegramProfile
deriving DecidableEq, Repr

/-- `send_telegram_message` (main.py lines 207-213): posts one message
when the bot token is configured, otherwise does nothing; delivery
failures are swallowed.  Returns the messages handed to the transport. -/
def send_telegram_message (tokenSet : Bool) (chat_id : Int) (text : String) :
    List (Int × String) :=
  if tokenSet then [(chat_id, text)] else []

/-- The profile-ensuring step at the top of the webhook (main.py lines
233-238): insert a fresh profile for the chat id when none exists. -/
def ensureProfile (st : BotState) (chat_id : Int) (username : Option String) :
    BotState :=
  if (st.profiles.find? (fun p => p.chat_id == chat_id)).isSome then st
  else { st with profiles :=
          st.profiles ++ [{ chat_id := chat_id, username := username,
                            email := none, wallet := none }] }

/-- The linked email of the chat's profile:
`(profile or {}).get("email")`. -/
def profileEmail (st : BotState) (chat_id : Int) : Option String :=
  (st.profiles.find? (fun p => p.chat_id == chat_id)).bind (·.email)

/-- The `/link` handler's profile update (main.py line 254): `$set` the
email and username on the chat's profile. -/
def linkProfile (st : BotState) (chat_id : Int) (email : String)
    (username : Option String) : List TelegramProfile :=
  st.profiles.map (fun p =>
    if p.chat_id == chat_id then { p with email := some email, username := username }
    else p)

/-- Pydantic's parse of a currency token supplied as a raw string in the
`/pay` command (`schemas.py` `Literal` for `currency`). -/
def currencyOfString (s : String) : Option Currency :=
  if s = "USD" then some .USD
  else if s = "USDC" then some .USDC
  else if s = "USDT" then some .USDT
  else if s = "ETH" then some .ETH
  else if s = "BTC" then some .BTC
  else none

/-- Rendering of a status into the reply strings (`res['status']`). -/
def statusText : Status → String
  | .pending => "pending"
  | .funded => "funded"
  | .releasable => "releasable"
  | .released => "released"
  | .cancelled => "cancelled"

/-- Rendering of a currency into the `/my` listing. -/
def currencyText : Currency → String
  | .USD => "USD"
  | .USDC => "USDC"
  | .USDT => "USDT"
  | .ETH => "ETH"
  | .BTC => "BTC"

/-- Display rendering of an amount in the `/my` listing. -/
def amountText (q : ℚ) : String :=
  toString q.num ++ (if q.den = 1 then "" else "/" ++ toString q.den)

/-- One line of the `/my` listing (main.py lines 335-338). -/
def myLine (p : Nat × Escrow) : String :=
  "• " ++ toString p.1 ++ ": " ++ statusText p.2.status ++ " " ++
    currencyText p.2.currency ++ " " ++ amountText p.2.total_amount ++
    " to " ++ toString (p.2.recipients.map (·.email))

/-- The escrow document built by the `/pay` handler (main.py lines
275-286), with pydantic's validations in source order: the
`Recipient(email=recipient_email, ...)` construction validates the
recipient's `EmailStr` first (line 275); the `Escrow(...)` construction
then validates its fields in declaration order — `payer_email`
(`EmailStr`), `total_amount` (`condecimal(gt=0)`), `currency`
(`Literal`).  `isEmail` models the external email-validator library
behind pydantic's `EmailStr`. -/
def payEscrow (isEmail : String → Bool) (payer_email recipient_email : String)
    (amount : ℚ) (currencyTok : String) : Except ApiError Escrow :=
  if isEmail recipient_email then
    if isEmail payer_email then
      if 0 < amount then
        match currencyOfString currencyTok with
        | some cur =>
          .ok { title := "P2P Payment",
                description := some ("P2P via Telegram from " ++ payer_email ++
                  " to " ++ recipient_email),
                payer_email := payer_email, total_amount := amount,
                currency := cur, chain := .testnet,
                recipients := [{ email := recipient_email, percentage := 100,
                                 wallet := none, confirmed := false }],
                payer_confirmed := false, status := .funded,
                updated_at := none }
        | none => .error (.pydanticValidation "currency")
      else .error (.pydanticValidation "total_amount")
    else .error (.pydanticValidation "payer_email")
  else .error (.pydanticValidation "email")

/-- The command-dispatching body of `telegram_webhook` (main.py lines
227-344), run on the message a delivery carries: ensure a profile for
the chat, then dispatch on the text's command prefix.  `isEmail` models
pydantic's `EmailStr` validator (the external email-validator library).
The result is the HTTP response, the new state and the messages sent,
or an `Except.error` for an exception that escapes the handler: a
pydantic validation failure in `/pay`'s `Recipient(...)`/`Escrow(...)`
constructions, or in `/confirm`'s `ConfirmRequest(actor=actor_email)`
construction (main.py line 305), whose `EmailStr` check rejects a
linked address that the raw `/link` `$set` stored unvalidated — neither
is caught by the `except HTTPException` clauses. -/
def handleMessage (tokenSet : Bool) (parseAmount : String → Option ℚ)
    (isEmail : String → Bool) (m : TgMessage) (st : BotState) (now : Nat) :
    Except ApiError (WebhookResp × BotState × List (Int × String)) :=
      let chat_id := m.chat_id
      let text := sTrim m.text
      let username := m.username
      let st := ensureProfile st chat_id username
      let reply := fun (msg : String) => send_telegram_message tokenSet chat_id msg
      if sStartsWith text "/start" then
        .ok ({ ok := true }, st,
          reply ("Welcome to SplitPay P2P!\n\nLink your email with /link your@email.com\nCreate a payment: /pay recipient@email.com 25 USDC\nConfirm: /confirm <escrow_id>\nRelease: /release <escrow_id>\nView: /my"))
      else if sStartsWith text "/link" then
        let parts := wsSplit text
        if 2 ≤ parts.length then
          let email := parts.getD 1 ""
          .ok ({ ok := true },
            { st with profiles := linkProfile st chat_id email username },
            reply ("Linked email: " ++ email))
        else
          .ok ({ ok := true }, st, reply "Usage: /link your@email.com")
      else if sStartsWith text "/pay" then
        let parts := wsSplit text
        if 3 ≤ parts.length then
          let recipient_email := parts.getD 1 ""
          match parseAmount (parts.getD 2 "") with
          | none =>
            .ok ({ ok := true }, st, reply "Amount must be a number, e.g., 25")
          | some amount =>
            let currencyTok := if 4 ≤ parts.length then parts.getD 3 "" else "USDC"
            match profileEmail st chat_id with
            | none =>
              .ok ({ ok := true }, st,
                reply "Please link your email first: /link your@email.com")
            | some payer_email =>
              match payEscrow isEmail payer_email recipient_email amount
                  currencyTok with
              | .error e => .error e
              | .ok doc =>
                let (escrows1, escrow_id) := create_document st.escrows doc
                .ok ({ ok := true }, { st with escrows := escrows1 },
                  reply ("✅ Created escrow " ++ toString escrow_id ++
                    "\nPayer confirm: /confirm " ++ toString escrow_id ++
                    "\nRecipient confirm: recipients can also /confirm " ++
                    toString escrow_id ++ " after linking their email with /link"))
        else
          .ok ({ ok := true }, st, reply "Usage: /pay recipient@email 25 [USDC]")
      else if sStartsWith text "/confirm" then
        let parts := wsSplit text
        if 2 ≤ parts.length then
          let escrow_id := parts.getD 1 ""
          match profileEmail st chat_id with
          | none =>
            .ok ({ ok := true }, st,
              reply "Please link your email first: /link your@email.com")
          | some actor_email =>
            if isEmail actor_email then
              match parseNatTok escrow_id with
              | none =>
                .ok ({ ok := true }, st, reply "❌ Invalid escrow id")
              | some oid =>
                match confirm_escrow st.escrows oid actor_email now with
                | .ok (escrows1, status) =>
                  .ok ({ ok := true }, { st with escrows := escrows1 },
                    reply ("✅ Confirmed. Status: " ++ statusText status))
                | .error (.http _ detail) =>
                  .ok ({ ok := true }, st, reply ("❌ " ++ detail))
                | .error e => .error e
            else
              .error (.pydanticValidation "actor")
        else
          .ok ({ ok := true }, st, reply "Usage: /confirm <escrow_id>")
      else if sStartsWith text "/release" then
        let parts := wsSplit text
        if 2 ≤ parts.length then
          let escrow_id := parts.getD 1 ""
          match parseNatTok escrow_id with
          | none =>
            .ok ({ ok := true }, st, reply "❌ Invalid escrow id")
          | some oid =>
            match release_escrow st.escrows oid with
            | .ok (escrows1, status) =>
              .ok ({ ok := true }, { st with escrows := escrows1 },
                reply ("✅ Released. Status: " ++ statusText status))
            | .error (.http _ detail) =>
              .ok ({ ok := true }, st, reply ("❌ " ++ detail))
            | .error e => .error e
        else
          .ok ({ ok := true }, st, reply "Usage: /release <escrow_id>")
      else if sStartsWith text "/my" then
        match profileEmail st chat_id with
        | none =>
          .ok ({ ok := true }, st,
            reply "Link your email first: /link your@email.com")
        | some email =>
          let items := list_escrows (some email) st.escrows
          if items = [] then
            .ok ({ ok := true }, st, reply "No escrows yet.")
          else
            .ok ({ ok := true }, st,
              reply ("Your escrows:\n" ++
                String.intercalate "\n" ((items.take 10).map myLine)))
      else
        .ok ({ ok := true }, st, reply "Unknown command. Try /start")

/-- `telegram_webhook` (main.py lines 216-344).  `tokenSet` models
whether `TELEGRAM_BOT_TOKEN` is configured: when it is unset the webhook
acknowledges immediately ("Allow graceful testing without token") before
reading the update; `parseAmount` models Python's `float(...)` applied
to the amount token (`none` when it raises); `now` models the current
time. -/
def telegram_webhook (tokenSet : Bool) (parseAmount : String → Option ℚ)
    (isEmail : String → Bool) (upd : TgUpdate) (st : BotState) (now : Nat) :
    Except ApiError (WebhookResp × BotState × List (Int × String)) :=
  if !tokenSet then
    .ok ({ ok := true, message := some "Telegram token not configured" }, st, [])
  else
    match upd.message <|> upd.edited_message with
    | none => .ok ({ ok := true }, st, [])
    | some m => handleMessage tokenSet parseAmount isEmail m st now

/-- A concrete stand-in instance for the `parseAmount` parameter, used
to exercise the webhook on concrete inputs: parses an unsigned decimal
integer token, failing on anything else. -/
def parseNatAmount (s : String) : Option ℚ :=
  (parseNatTok s).map (fun n => (n : ℚ))

/-- A concrete stand-in instance for the `isEmail` parameter, used to
exercise the webhook on concrete inputs: accepts any string containing
an `@`. -/
def simpleEmailCheck (s : String) : Bool :=
  s.data.contains '@' 

/-- Projection of an escrow onto its confirmation flags: the payer's
flag and each recipient's flag, in order. -/
def confirmationFlags (d : Escrow) : Bool × List Bool :=
  (d.payer_confirmed, d.recipients.map (·.confirmed))

/-! ## Concrete instances used to exercise the definitions -/

/-- The store component of a confirm/release result (the collection as
left by the call; the empty store is never reached on the paths where
this is used). -/
def stepStore (r : Except ApiError (Store × Status)) : Store :=
  match r with
  | .ok q => q.1
  | .error _ => []

/-- A two-recipient escrow as `create_escrow` would store it
(scenario A of spec §8). -/
def c1Escrow : Escrow :=
  { title := "Deal", payer_email := "a@x.com", total_amount := 100,
    recipients := [{ email := "b@x.com", percentage := 60 },
                   { email := "c@x.com", percentage := 40 }] }

/-- The store after creating `c1Escrow` in an empty collection. -/
def c1s0 : Store := (create_document [] c1Escrow).1

/-- ... after the payer confirms. -/
def c1s1 : Store := stepStore (confirm_escrow c1s0 1 "a@x.com" 1)

/-- ... after the first recipient confirms. -/
def c1s2 : Store := stepStore (confirm_escrow c1s1 1 "b@x.com" 2)

/-- ... after the second recipient confirms. -/
def c1s3 : Store := stepStore (confirm_escrow c1s2 1 "c@x.com" 3)

/-- ... after release. -/
def c1s4 : Store := stepStore (release_escrow c1s3 1)

/-- ... after the payer confirms once more, post-release. -/
def c1s5 : Store := stepStore (confirm_escrow c1s4 1 "a@x.com" 5)

/-- A fully-confirmed releasable escrow. -/
def relEsc : Escrow :=
  { title := "Rel", payer_email := "a@x.com", total_amount := 100,
    recipients := [{ email := "b@x.com", percentage := 100, confirmed := true }],
    payer_confirmed := true, status := .releasable }

/-- A freshly funded escrow with one payer and one recipient. -/
def fundEsc : Escrow :=
  { title := "Fund", payer_email := "a@x.com", total_amount := 100,
    recipients := [{ email := "b@x.com", percentage := 100 }] }

/-- A store holding a releasable and a funded escrow. -/
def c3Store : Store := [(1, relEsc), (2, fundEsc)]

/-- A store holding just the funded escrow. -/
def c2Store : Store := [(1, fundEsc)]

/-- A create request whose single recipient arrives pre-confirmed, as
the request schema permits. -/
def c4BadReq : CreateEscrowRequest :=
  { title := "Deal", payer_email := "a@x.com", total_amount := 50,
    recipients := [{ email := "b@x.com", percentage := 100, confirmed := true }] }

/-- A well-formed create request with two recipients. -/
def c4OkReq : CreateEscrowRequest :=
  { title := "Deal", payer_email := "a@x.com", total_amount := 50,
    recipients := [{ email := "b@x.com", percentage := 60 },
                   { email := "c@x.com", percentage := 40 }] }

/-- The escrow document `create_escrow` builds for `c4OkReq`. -/
def c4OkDoc : Escrow :=
  { title := "Deal", payer_email := "a@x.com", total_amount := 50,
    recipients := [{ email := "b@x.com", percentage := 60 },
                   { email := "c@x.com", percentage := 40 }] }

/-- A request failing the pydantic amount check. -/
def c4ZeroReq : CreateEscrowRequest :=
  { title := "Deal", payer_email := "a@x.com", total_amount := 0,
    recipients := [{ email := "b@x.com", percentage := 100 }] }

/-- A single escrow whose payer is `a@x.com`. -/
def c6Esc : Escrow :=
  { title := "T", payer_email := "a@x.com", total_amount := 10,
    recipients := [{ email := "b@x.com", percentage := 100 }] }

/-- Fifty-one stored escrows, all matching the filter `a@x.com`. -/
def c6Store : Store := (List.range 51).map (fun i => (i, c6Esc))

/-- The store after the payer confirms the funded escrow of `c2Store`. -/
def c7St : Store := stepStore (confirm_escrow c2Store 1 "a@x.com" 7)

/-- A chat message carrying no recognized command. -/
def c9Msg : TgMessage := { chat_id := 42, text := "hello" }

/-- A webhook delivery carrying `c9Msg`. -/
def c9Upd : TgUpdate := { message := some c9Msg }

/-- An empty bot state. -/
def c9Bst : BotState := { escrows := [], profiles := [] }

/-- The bot state after a profile is ensured for chat 42. -/
def c9Bst2 : BotState := { escrows := [], profiles := [{ chat_id := 42 }] }

/-- A well-formed `/pay` command delivery. -/
def c9PayUpd : TgUpdate :=
  { message := some { chat_id := 42, text := "/pay b@x.com 25" } }

/-- A bot state whose chat-42 profile has a linked email. -/
def c9Linked : BotState :=
  { escrows := [],
    profiles := [{ chat_id := 42, email := some "a@x.com" }] }

/-- A `/pay` command delivery whose amount token is not numeric. -/
def c10Upd : TgUpdate :=
  { message := some { chat_id := 42, text := "/pay b@x.com abc" } }

/-- A bot state whose chat-42 profile was linked to a non-email string
(the raw `/link` `$set` stores it unvalidated). -/
def c9BadLinked : BotState :=
  { escrows := [],
    profiles := [{ chat_id := 42, email := some "notanemail" }] }

/-- A `/confirm` command delivery. -/
def c9ConfUpd : TgUpdate :=
  { message := some { chat_id := 42, text := "/confirm 1" } }

end SplitPay

deriving instance DecidableEq for Except

namespace SplitPay

/-! ## Store lemmas -/

theorem findOne_cons (p : Nat × Escrow) (t : Store) (j : Nat) :
    findOne (p :: t) j = if p.1 == j then some p.2 else findOne t j := by
  by_cases h : p.1 = j
  · have hb : (p.1 == j) = true := by simp [h]
    simp [findOne, List.find?, hb]
  · have hb : (p.1 == j) = false := by simp [h]
    simp [findOne, List.find?, hb]

theorem updateOne_cons (p : Nat × Escrow) (t : Store) (i : Nat) (d : Escrow) :
    updateOne (p :: t) i d = (if p.1 == i then (i, d) else p) :: updateOne t i d :=
  rfl

theorem findOne_updateOne_self {st : Store} {i : Nat} {d0 : Escrow}
    (h : findOne st i = some d0) (d : Escrow) :
    findOne (updateOne st i d) i = some d := by
  induction st with
  | nil => simp [findOne] at h
  | cons p t ih =>
    by_cases hp : p.1 = i
    · rw [updateOne_cons, if_pos (by simp [hp]), findOne_cons]
      simp
    · rw [findOne_cons, if_neg (by simp [hp])] at h
      rw [updateOne_cons, if_neg (by simp [hp]), findOne_cons,
        if_neg (by simp [hp])]
      exact ih h

theorem findOne_updateOne_ne {st : Store} (i j : Nat) (hij : i ≠ j)
    (d : Escrow) : findOne (updateOne st i d) j = findOne st j := by
  induction st with
  | nil => rfl
  | cons p t ih =>
    by_cases hp : p.1 = i
    · rw [updateOne_cons, if_pos (by simp [hp]), findOne_cons, findOne_cons,
        if_neg (by simp [hij]), if_neg (by simp [hp, hij])]
      exact ih
    · rw [updateOne_cons, if_neg (by simp [hp]), findOne_cons, findOne_cons]
      rw [ih]

theorem updateOne_updateOne (st : Store) (i : Nat) (d d' : Escrow) :
    updateOne (updateOne st i d) i d' = updateOne st i d' := by
  induction st with
  | nil => rfl
  | cons p t ih =>
    by_cases hp : p.1 = i
    · rw [updateOne_cons, if_pos (by simp [hp]), updateOne_cons,
        if_pos (by simp), updateOne_cons, if_pos (by simp [hp]), ih]
    · rw [updateOne_cons, if_neg (by simp [hp]), updateOne_cons,
        if_neg (by simp [hp]), updateOne_cons, if_neg (by simp [hp]), ih]

theorem updateOne_keys (st : Store) (i : Nat) (d : Escrow) :
    (updateOne st i d).map Prod.fst = st.map Prod.fst := by
  induction st with
  | nil => rfl
  | cons p t ih =>
    by_cases hp : p.1 = i
    · rw [updateOne_cons, if_pos (by simp [hp])]
      simp only [List.map, ih, hp]
    · rw [updateOne_cons, if_neg (by simp [hp])]
      simp only [List.map, ih]

/-! ## Lemmas about `markRecipients` -/

theorem markRecipients_cons (r : Recipient) (t : List Recipient) (a : String) :
    markRecipients (r :: t) a =
      (if r.email == a then { r with confirmed := true } else r) ::
        markRecipients t a :=
  rfl

theorem markRecipients_map_email_pct (l : List Recipient) (a : String) :
    (markRecipients l a).map (fun r => (r.email, r.percentage)) =
      l.map (fun r => (r.email, r.percentage)) := by
  induction l with
  | nil => rfl
  | cons r t ih =>
    rw [markRecipients_cons]
    by_cases h : r.email = a
    · rw [if_pos (by simp [h])]
      simp [List.map_cons, ih]
    · rw [if_neg (by simp [h])]
      simp [List.map_cons, ih]

theorem markRecipients_sumPct (l : List Recipient) (a : String) :
    sumPct (markRecipients l a) = sumPct l := by
  induction l with
  | nil => rfl
  | cons r t ih =>
    rw [markRecipients_cons]
    by_cases h : r.email = a
    · rw [if_pos (by simp [h])]
      simp [sumPct, List.map_cons] at ih ⊢
      simp [ih]
    · rw [if_neg (by simp [h])]
      simp [sumPct, List.map_cons] at ih ⊢
      simp [ih]

theorem markRecipients_any_email (l : List Recipient) (a : String)
    (p : String → Bool) :
    (markRecipients l a).any (fun r => p r.email) =
      l.any (fun r => p r.email) := by
  induction l with
  | nil => rfl
  | cons r t ih =>
    rw [markRecipients_cons]
    by_cases h : r.email = a
    · rw [if_pos (by simp [h])]
      simp [List.any_cons, ih]
    · rw [if_neg (by simp [h])]
      simp [List.any_cons, ih]

theorem markRecipients_idem (l : List Recipient) (a : String) :
    markRecipients (markRecipients l a) a = markRecipients l a := by
  induction l with
  | nil => rfl
  | cons r t ih =>
    rw [markRecipients_cons]
    by_cases h : r.email = a
    · rw [if_pos (by simp [h]), markRecipients_cons, if_pos (by simp [h]), ih]
    · rw [if_neg (by simp [h]), markRecipients_cons, if_neg (by simp [h]), ih]

/-! ## Characterization of `confirm_escrow` -/

theorem confirm_escrow_of_flags {st : Store} {i : Nat} {actor : String}
    {now : Nat} {doc doc1 : Escrow} (hf : findOne st i = some doc)
    (hc : confirmFlags doc actor now = .ok doc1) :
    confirm_escrow st i actor now =
      .ok (updateOne st i { doc1 with status := statusAfter doc1 },
           statusAfter doc1) := by
  have hre : findOne (updateOne st i doc1) i = some doc1 :=
    findOne_updateOne_self hf doc1
  simp only [confirm_escrow, hf, hc, hre]
  by_cases hs : statusAfter doc1 = doc1.status
  · have h1 : ({ doc1 with status := doc1.status } : Escrow) = doc1 := rfl
    rw [hs, h1, if_pos rfl]
  · rw [if_neg hs, updateOne_updateOne]

theorem confirm_escrow_of_error {st : Store} {i : Nat} {actor : String}
    {now : Nat} {doc : Escrow} {e : ApiError} (hf : findOne st i = some doc)
    (hc : confirmFlags doc actor now = .error e) :
    confirm_escrow st i actor now = .error e := by
  simp only [confirm_escrow, hf, hc]

theorem confirm_escrow_notFound {st : Store} {i : Nat} {actor : String}
    {now : Nat} (hf : findOne st i = none) :
    confirm_escrow st i actor now = .error (.http 404 "Escrow not found") := by
  simp only [confirm_escrow, hf]

theorem confirmFlags_no_pydantic (doc : Escrow) (actor : String) (now : Nat)
    (f : String) : confirmFlags doc actor now ≠ .error (.pydanticValidation f) := by
  unfold confirmFlags
  split
  · simp
  · split <;> simp

theorem markRecipients_any_beq (l : List Recipient) (a b : String) :
    (markRecipients l a).any (fun r => r.email == b) =
      l.any (fun r => r.email == b) := by
  induction l with
  | nil => rfl
  | cons r t ih =>
    rw [markRecipients_cons]
    by_cases h : r.email = a
    · rw [if_pos (by simp [h])]
      simp [List.any_cons, ih]
    · rw [if_neg (by simp [h])]
      simp [List.any_cons, ih]

theorem confirm_escrow_payer {st : Store} {i : Nat} {actor : String}
    {now : Nat} {doc : Escrow} (hf : findOne st i = some doc)
    (hp : actor = doc.payer_email) :
    ∃ d', confirm_escrow st i actor now = .ok (updateOne st i d', d'.status) ∧
      d'.payer_confirmed = true ∧ d'.recipients = doc.recipients ∧
      d'.payer_email = doc.payer_email := by
  have hc : confirmFlags doc actor now =
      .ok { doc with payer_confirmed := true, updated_at := some now } := by
    unfold confirmFlags
    rw [if_pos (show (actor == doc.payer_email) = true by simp [hp])]
  exact ⟨_, confirm_escrow_of_flags hf hc, rfl, rfl, rfl⟩

theorem confirm_escrow_recipient {st : Store} {i : Nat} {actor : String}
    {now : Nat} {doc : Escrow} (hf : findOne st i = some doc)
    (hp : ¬actor = doc.payer_email)
    (hany : doc.recipients.any (fun r => r.email == actor) = true) :
    ∃ d', confirm_escrow st i actor now = .ok (updateOne st i d', d'.status) ∧
      d'.payer_confirmed = doc.payer_confirmed ∧
      d'.recipients = markRecipients doc.recipients actor ∧
      d'.payer_email = doc.payer_email := by
  have hc : confirmFlags doc actor now =
      .ok { doc with recipients := markRecipients doc.recipients actor,
                     updated_at := some now } := by
    unfold confirmFlags
    rw [if_neg (show ¬(actor == doc.payer_email) = true by simp [hp]),
      if_pos hany]
  exact ⟨_, confirm_escrow_of_flags hf hc, rfl, rfl, rfl⟩

theorem confirm_escrow_no_pydantic (st : Store) (i : Nat) (actor : String)
    (now : Nat) (f : String) :
    confirm_escrow st i actor now ≠ .error (.pydanticValidation f) := by
  intro h
  unfold confirm_escrow at h
  cases hf : findOne st i with
  | none => simp [hf] at h
  | some doc =>
    cases hc : confirmFlags doc actor now with
    | error e =>
      simp [hf, hc] at h
      subst h
      exact confirmFlags_no_pydantic doc actor now f hc
    | ok doc1 =>
      cases hre : findOne (updateOne st i doc1) i with
      | none => simp [hf, hc, hre] at h
      | some doc2 =>
        simp only [hf, hc, hre] at h
        by_cases hs : statusAfter doc2 = doc2.status
        · rw [if_pos hs] at h
          exact Except.noConfusion h
        · rw [if_neg hs] at h
          exact Except.noConfusion h

theorem release_escrow_no_pydantic (st : Store) (i : Nat) (f : String) :
    release_escrow st i ≠ .error (.pydanticValidation f) := by
  intro h
  unfold release_escrow at h
  cases hf : findOne st i with
  | none => simp [hf] at h
  | some doc =>
    simp only [hf] at h
    by_cases hs : doc.status = Status.releasable
    · rw [if_neg (by simp [hs])] at h
      exact Except.noConfusion h
    · rw [if_pos (by simp [hs])] at h
      simp at h

/-! ## Webhook lemmas -/

theorem ensureProfile_escrows (st : BotState) (cid : Int)
    (un : Option String) : (ensureProfile st cid un).escrows = st.escrows := by
  unfold ensureProfile
  split <;> rfl

theorem telegram_webhook_message (pa : String → Option ℚ)
    (ie : String → Bool) (upd : TgUpdate) (st : BotState) (now : Nat)
    (m : TgMessage) (hm : (upd.message <|> upd.edited_message) = some m) :
    telegram_webhook true pa ie upd st now =
      handleMessage true pa ie m st now := by
  unfold telegram_webhook
  rw [hm]
  rfl

theorem apiError_not_http_pydantic (e : ApiError)
    (hn : ∀ a b, e = ApiError.http a b → False) :
    ∃ f, e = .pydanticValidation f := by
  cases e with
  | http a b => exact absurd rfl (hn a b)
  | pydanticValidation f => exact ⟨f, rfl⟩

theorem handleMessage_ok_sends (pa : String → Option ℚ)
    (ie : String → Bool) (m : TgMessage) (st : BotState) (now : Nat)
    (r : WebhookResp) (st' : BotState) (sent : List (Int × String))
    (h : handleMessage true pa ie m st now = .ok (r, st', sent)) :
    r.ok = true ∧ sent.map Prod.fst = [m.chat_id] := by
  simp only [handleMessage] at h
  repeat' split at h
  all_goals
    first
      | exact Except.noConfusion h
      | (simp only [Except.ok.injEq, Prod.mk.injEq] at h
         obtain ⟨h1, -, h3⟩ := h
         rw [← h1, ← h3]
         simp [send_telegram_message])

theorem handleMessage_error_branch (pa : String → Option ℚ)
    (ie : String → Bool) (m : TgMessage) (st : BotState) (now : Nat)
    (e : ApiError) (h : handleMessage true pa ie m st now = .error e) :
    sStartsWith (sTrim m.text) "/pay" = true ∨
      sStartsWith (sTrim m.text) "/confirm" = true := by
  simp only [handleMessage] at h
  repeat' split at h
  all_goals
    first
      | exact Except.noConfusion h
      | exact Or.inl (by assumption)
      | exact Or.inr (by assumption)
      | (exfalso
         obtain ⟨f, rfl⟩ := apiError_not_http_pydantic _ (by assumption)
         exact confirm_escrow_no_pydantic _ _ _ _ f (by assumption))
      | (exfalso
         obtain ⟨f, rfl⟩ := apiError_not_http_pydantic _ (by assumption)
         exact release_escrow_no_pydantic _ _ f (by assumption))

/-! ## Claims -/

/-- C3: `release_escrow` succeeds exactly on an existing escrow whose
status is `releasable`, setting the status to `released`; a missing id
fails with the 404 `NotFoundError`, and any other status (`funded`,
`cancelled`, already `released`, `pending`) fails with the 400
`NotReleasableError`; on failure the handler raises before the write,
so the escrow is unchanged. -/
theorem C3_release_iff (st : Store) (i : Nat) :
    (findOne st i = none →
      release_escrow st i = .error (.http 404 "Escrow not found")) ∧
    (∀ doc, findOne st i = some doc →
      (doc.status = .releasable →
        release_escrow st i =
          .ok (updateOne st i { doc with status := .released }, .released)) ∧
      (doc.status ≠ .releasable →
        release_escrow st i =
          .error (.http 400 "Escrow is not yet releasable"))) := by
  constructor
  · intro h
    simp [release_escrow, h]
  · intro doc h
    constructor
    · intro hs
      simp only [release_escrow, h]
      rw [if_neg (show ¬doc.status ≠ Status.releasable by simp [hs])]
    · intro hs
      simp only [release_escrow, h]
      rw [if_pos hs]

/-- Witness for C3 at concrete stores: release succeeds on the
releasable escrow, is rejected on the funded one and on a missing id. -/
theorem C3_release_iff_witness :
    release_escrow c3Store 1 =
      .ok (updateOne c3Store 1 { relEsc with status := .released }, .released) ∧
    release_escrow c3Store 2 =
      .error (.http 400 "Escrow is not yet releasable") ∧
    release_escrow c3Store 3 = .error (.http 404 "Escrow not found") :=
  ⟨((C3_release_iff c3Store 1).2 relEsc (by decide)).1 (by decide),
   ((C3_release_iff c3Store 2).2 fundEsc (by decide)).2 (by decide),
   (C3_release_iff c3Store 3).1 (by decide)⟩

/-- C8: `create_p2p_escrow` produces exactly the record (and, with the
insert, the store and id) that `create_escrow` produces when called with
the single recipient `{email := recipient_email, percentage := 100}`:
the percentage-sum check passes trivially, and every field — payer,
amount, currency, chain, `payer_confirmed = false`, recipient
`confirmed = false`, `status = funded` — coincides. -/
theorem C8_p2p_equiv (pe re : String) (amt : ℚ) (cur : Currency) (ch : Chain)
    (t : Option String) (d : Option String) (st : Store) :
    create_p2p_escrow
        { payer_email := pe, recipient_email := re, amount := amt,
          currency := cur, chain := ch, title := t, description := d } =
      create_escrow
        { title := titleOrDefault t, description := d, payer_email := pe,
          total_amount := amt, currency := cur, chain := ch,
          recipients := [{ email := re, percentage := 100, wallet := none,
                           confirmed := false }] } ∧
    create_p2p_escrow_api
        { payer_email := pe, recipient_email := re, amount := amt,
          currency := cur, chain := ch, title := t, description := d } st =
      create_escrow_api
        { title := titleOrDefault t, description := d, payer_email := pe,
          total_amount := amt, currency := cur, chain := ch,
          recipients := [{ email := re, percentage := 100, wallet := none,
                           confirmed := false }] } st := by
  have h : create_p2p_escrow
      { payer_email := pe, recipient_email := re, amount := amt,
        currency := cur, chain := ch, title := t, description := d } =
    create_escrow
      { title := titleOrDefault t, description := d, payer_email := pe,
        total_amount := amt, currency := cur, chain := ch,
        recipients := [{ email := re, percentage := 100, wallet := none,
                         confirmed := false }] } := by
    unfold create_escrow create_p2p_escrow
    rw [if_neg (by norm_num [sumPct, pctTolerance])]
  exact ⟨h, by unfold create_p2p_escrow_api create_escrow_api; rw [h]⟩

/-- C6 (amended): `list_escrows` with a filter returns the stored
escrows whose payer email or some recipient email equals the filter, in
store order, truncated to the 50-document page that the handler passes
to the store for filtered and unfiltered queries alike; with no filter
it returns the first 50 of all escrows; when nothing matches it returns
the empty sequence, and there is no error condition. -/
theorem C6_list_filter (st : Store) (e : String) :
    list_escrows (some e) st =
      (st.filter (fun p => p.2.payer_email == e ||
        p.2.recipients.any (fun r => r.email == e))).take 50 ∧
    list_escrows none st = st.take 50 ∧
    (st.filter (fun p => p.2.payer_email == e ||
        p.2.recipients.any (fun r => r.email == e)) = [] →
      list_escrows (some e) st = []) := by
  refine ⟨rfl, rfl, fun h => ?_⟩
  have h2 : st.filter (fun p => escrowMatches p.2 e) = [] := h
  simp [list_escrows, get_documents, h2]

/-- Witness for C6 at a concrete store: a filter matching nothing
yields the empty sequence. -/
theorem C6_list_filter_witness :
    list_escrows (some "z@x.com") c3Store = [] :=
  (C6_list_filter c3Store "z@x.com").2.2 (by decide)

/-- Counterexample to C6 as stated: with 51 stored escrows all matching
the filter, the filtered listing returns only 50 of them, not "exactly
those escrows" that match. -/
theorem C6_counterexample :
    (list_escrows (some "a@x.com") c6Store).length = 50 ∧
    (c6Store.filter (fun p => p.2.payer_email == "a@x.com" ||
      p.2.recipients.any (fun r => r.email == "a@x.com"))).length = 51 := by
  decide

/-- C4 (amended): `create_escrow` succeeds iff the recipients list is
non-empty, the percentage sum is within 1e-6 of 100 and the amount is
positive (emptiness is subsumed by the sum check, whose failure raises
before anything is built); on success the stored document carries
`payer_confirmed = false`, `status = funded`, and the recipients exactly
as supplied in the request — each recipient's `confirmed` flag is taken
from the request (false when left at its default) rather than being
reset; on failure a validation error is raised before `create_document`,
so nothing is persisted. -/
theorem C4_create_validation (p : CreateEscrowRequest) (st : Store) :
    ((create_escrow_api p st).isOk = true ↔
      (p.recipients ≠ [] ∧ |sumPct p.recipients - 100| ≤ pctTolerance ∧
        0 < p.total_amount)) ∧
    (∀ st' nid, create_escrow_api p st = .ok (st', nid) →
      st' = st ++ [(nid,
        { title := p.title, description := p.description,
          payer_email := p.payer_email, total_amount := p.total_amount,
          currency := p.currency, chain := p.chain,
          recipients := p.recipients, payer_confirmed := false,
          status := .funded, updated_at := none })]) ∧
    (∀ e, create_escrow_api p st = .error e →
      e = .http 400 "Recipient percentages must add up to 100" ∨
      e = .pydanticValidation "total_amount") := by
  unfold create_escrow_api create_escrow mkEscrow
  by_cases h1 : |sumPct p.recipients - 100| > pctTolerance
  · rw [if_pos h1]
    refine ⟨?_, ?_, ?_⟩
    · constructor
      · intro h
        simp [Except.map, Except.isOk, Except.toBool] at h
      · rintro ⟨-, h2, -⟩
        exact absurd h2 (not_le.mpr h1)
    · intro st' nid h
      simp [Except.map] at h
    · intro e h
      simp [Except.map] at h
      exact Or.inl h.symm
  · rw [if_neg h1]
    have hle : |sumPct p.recipients - 100| ≤ pctTolerance := le_of_not_lt h1
    have hne : p.recipients ≠ [] := by
      intro he
      rw [he] at hle
      norm_num [sumPct, pctTolerance] at hle
    by_cases h2 : 0 < p.total_amount
    · rw [if_pos h2]
      refine ⟨?_, ?_, ?_⟩
      · constructor
        · intro _
          exact ⟨hne, hle, h2⟩
        · intro _
          rfl
      · intro st' nid h
        simp only [Except.map, Except.ok.injEq, create_document, Prod.mk.injEq] at h
        obtain ⟨hst, hnid⟩ := h
        rw [← hst, ← hnid]
      · intro e h
        simp [Except.map] at h
    · rw [if_neg h2]
      refine ⟨?_, ?_, ?_⟩
      · constructor
        · intro h
          simp [Except.map, Except.isOk, Except.toBool] at h
        · rintro ⟨-, -, h3⟩
          exact absurd h3 h2
      · intro st' nid h
        simp [Except.map] at h
      · intro e h
        simp [Except.map] at h
        exact Or.inr h.symm

/-- Witness for C4 (amended) at concrete requests: the well-formed
request succeeds and persists exactly the appended document. -/
theorem C4_create_validation_witness :
    (create_escrow_api c4OkReq []).isOk = true ∧
    ([(1, c4OkDoc)] : Store) = [] ++ [(1, c4OkDoc)] ∧
    (ApiError.pydanticValidation "total_amount" =
        .http 400 "Recipient percentages must add up to 100" ∨
      ApiError.pydanticValidation "total_amount" =
        .pydanticValidation "total_amount") :=
  ⟨(C4_create_validation c4OkReq []).1.mpr
     ⟨by decide, by norm_num [c4OkReq, sumPct, pctTolerance],
      by norm_num [c4OkReq]⟩,
   (C4_create_validation c4OkReq []).2.1 [(1, c4OkDoc)] 1
     (by norm_num [create_escrow_api, create_escrow, mkEscrow, sumPct,
        pctTolerance, c4OkReq, c4OkDoc, create_document, freshId, Except.map]),
   (C4_create_validation c4ZeroReq []).2.2
     (.pydanticValidation "total_amount")
     (by norm_num [create_escrow_api, create_escrow, mkEscrow, sumPct,
        pctTolerance, c4ZeroReq, Except.map])⟩

/-- Counterexample to C4 as stated: a create request whose recipient
arrives with `confirmed = true` succeeds, and the created escrow does
NOT have every recipient's `confirmed` flag false — the handler stores
`payload.recipients` verbatim instead of resetting the flags. -/
theorem C4_counterexample :
    (create_escrow c4BadReq).toOption.map
      (fun d => d.recipients.all (fun r => !r.confirmed)) = some false := by
  norm_num [create_escrow, mkEscrow, sumPct, pctTolerance, c4BadReq,
    Except.toOption, List.all]

/-- C2: `confirm_escrow` resolves the actor payer-first: when the actor
email equals the payer's, only `payer_confirmed` is set (the recipients,
even one sharing the payer's email, are untouched); otherwise every
recipient whose email equals the actor — all matching entries — has
`confirmed` set to true and `payer_confirmed` is untouched; when neither
matches, the call fails with the 400 `NotPartyError`, raised before any
write, so the escrow is not mutated. -/
theorem C2_confirm_resolution (st : Store) (i : Nat) (actor : String)
    (now : Nat) (doc : Escrow) (hf : findOne st i = some doc) :
    (actor = doc.payer_email →
      ∃ st' s d', confirm_escrow st i actor now = .ok (st', s) ∧
        findOne st' i = some d' ∧ d'.payer_confirmed = true ∧
        d'.recipients = doc.recipients) ∧
    (actor ≠ doc.payer_email →
      doc.recipients.any (fun r => r.email == actor) = true →
      ∃ st' s d', confirm_escrow st i actor now = .ok (st', s) ∧
        findOne st' i = some d' ∧
        d'.payer_confirmed = doc.payer_confirmed ∧
        d'.recipients = doc.recipients.map (fun r =>
          if r.email == actor then { r with confirmed := true } else r)) ∧
    (actor ≠ doc.payer_email →
      doc.recipients.any (fun r => r.email == actor) = false →
      confirm_escrow st i actor now =
        .error (.http 400 "Actor not part of this escrow")) := by
  refine ⟨fun hp => ?_, fun hp hany => ?_, fun hp hany => ?_⟩
  · obtain ⟨d', h1, hflag, hrec, -⟩ := confirm_escrow_payer hf hp
    exact ⟨_, _, d', h1, findOne_updateOne_self hf d', hflag, hrec⟩
  · obtain ⟨d', h1, hflag, hrec, -⟩ := confirm_escrow_recipient hf hp hany
    exact ⟨_, _, d', h1, findOne_updateOne_self hf d', hflag, hrec⟩
  · have hc : confirmFlags doc actor now =
        .error (.http 400 "Actor not part of this escrow") := by
      unfold confirmFlags
      rw [if_neg (show ¬(actor == doc.payer_email) = true by simp [hp]),
        if_neg (show ¬(doc.recipients.any fun r => r.email == actor) = true by
          simp [hany])]
    exact confirm_escrow_of_error hf hc

/-- Witness for C2 at the concrete funded escrow: the payer, a
recipient, and a stranger each take the branch the claim describes. -/
theorem C2_confirm_resolution_witness :
    (∃ st' s d', confirm_escrow c2Store 1 "a@x.com" 7 = .ok (st', s) ∧
      findOne st' 1 = some d' ∧ d'.payer_confirmed = true ∧
      d'.recipients = fundEsc.recipients) ∧
    (∃ st' s d', confirm_escrow c2Store 1 "b@x.com" 7 = .ok (st', s) ∧
      findOne st' 1 = some d' ∧
      d'.payer_confirmed = fundEsc.payer_confirmed ∧
      d'.recipients = fundEsc.recipients.map (fun r =>
        if r.email == "b@x.com" then { r with confirmed := true } else r)) ∧
    confirm_escrow c2Store 1 "z@x.com" 7 =
      .error (.http 400 "Actor not part of this escrow") :=
  ⟨(C2_confirm_resolution c2Store 1 "a@x.com" 7 fundEsc (by decide)).1
     (by decide),
   (C2_confirm_resolution c2Store 1 "b@x.com" 7 fundEsc (by decide)).2.1
     (by decide) (by decide),
   (C2_confirm_resolution c2Store 1 "z@x.com" 7 fundEsc (by decide)).2.2
     (by decide) (by decide)⟩

/-- C5: `confirm_escrow` is idempotent per actor: when the actor is a
party (the payer, or matching some recipient), a first confirm succeeds,
a second confirm by the same actor also succeeds without error, and the
confirmation flags (the payer's flag and every recipient's flag) of the
stored escrow are identical after the second call and after the first. -/
theorem C5_confirm_idempotent (st : Store) (i : Nat) (actor : String)
    (now1 now2 : Nat) (doc : Escrow) (hf : findOne st i = some doc)
    (hparty : actor = doc.payer_email ∨
      doc.recipients.any (fun r => r.email == actor) = true) :
    ∃ st1 s1 st2 s2,
      confirm_escrow st i actor now1 = .ok (st1, s1) ∧
      confirm_escrow st1 i actor now2 = .ok (st2, s2) ∧
      (findOne st2 i).map confirmationFlags =
        (findOne st1 i).map confirmationFlags := by
  by_cases hp : actor = doc.payer_email
  · obtain ⟨d1, h1, hflag1, hrec1, hpe1⟩ := confirm_escrow_payer hf hp
    have hf1 : findOne (updateOne st i d1) i = some d1 :=
      findOne_updateOne_self hf d1
    obtain ⟨d2, h2, hflag2, hrec2, -⟩ :=
      @confirm_escrow_payer _ _ actor now2 _ hf1
        (show actor = d1.payer_email from hpe1 ▸ hp)
    refine ⟨_, _, _, _, h1, h2, ?_⟩
    rw [findOne_updateOne_self hf1 d2, hf1]
    simp [confirmationFlags, hflag1, hflag2, hrec1, hrec2]
  · have hany := hparty.resolve_left hp
    obtain ⟨d1, h1, hflag1, hrec1, hpe1⟩ := confirm_escrow_recipient hf hp hany
    have hf1 : findOne (updateOne st i d1) i = some d1 :=
      findOne_updateOne_self hf d1
    have hany1 : d1.recipients.any (fun r => r.email == actor) = true := by
      rw [hrec1, markRecipients_any_beq]
      exact hany
    obtain ⟨d2, h2, hflag2, hrec2, -⟩ :=
      @confirm_escrow_recipient _ _ actor now2 _ hf1
        (show ¬actor = d1.payer_email from hpe1 ▸ hp) hany1
    refine ⟨_, _, _, _, h1, h2, ?_⟩
    rw [findOne_updateOne_self hf1 d2, hf1]
    simp [confirmationFlags, hflag2, hrec2, hrec1, markRecipients_idem]

/-- Witness for C5: confirming the payer of the funded escrow twice in
a row succeeds both times and leaves the flags of the first call. -/
theorem C5_confirm_idempotent_witness :
    ∃ st1 s1 st2 s2,
      confirm_escrow c2Store 1 "a@x.com" 7 = .ok (st1, s1) ∧
      confirm_escrow st1 1 "a@x.com" 8 = .ok (st2, s2) ∧
      (findOne st2 1).map confirmationFlags =
        (findOne st1 1).map confirmationFlags :=
  C5_confirm_idempotent c2Store 1 "a@x.com" 7 8 fundEsc (by decide)
    (Or.inl (by decide))

/-- C7: a successful `confirm_escrow` only touches the confirmation
flags, the derived status and `updated_at`: the stored ids and the
escrow's title, description, payer email, amount, currency, chain, and
every recipient's email and percentage are unchanged, so the
creation-time percentage-sum invariant still holds afterwards. -/
theorem C7_confirm_frame (st : Store) (i : Nat) (actor : String) (now : Nat)
    (doc : Escrow) (st' : Store) (s : Status)
    (hf : findOne st i = some doc)
    (hok : confirm_escrow st i actor now = .ok (st', s)) :
    st'.map Prod.fst = st.map Prod.fst ∧
    ∃ d', findOne st' i = some d' ∧
      d'.title = doc.title ∧ d'.description = doc.description ∧
      d'.payer_email = doc.payer_email ∧
      d'.total_amount = doc.total_amount ∧
      d'.currency = doc.currency ∧ d'.chain = doc.chain ∧
      d'.recipients.map (fun r => (r.email, r.percentage)) =
        doc.recipients.map (fun r => (r.email, r.percentage)) ∧
      sumPct d'.recipients = sumPct doc.recipients ∧
      (|sumPct doc.recipients - 100| ≤ pctTolerance →
        |sumPct d'.recipients - 100| ≤ pctTolerance) := by
  cases hc : confirmFlags doc actor now with
  | error e =>
    rw [confirm_escrow_of_error hf hc] at hok
    exact Except.noConfusion hok
  | ok doc1 =>
    rw [confirm_escrow_of_flags hf hc] at hok
    simp only [Except.ok.injEq, Prod.mk.injEq] at hok
    obtain ⟨hst, -⟩ := hok
    subst hst
    refine ⟨updateOne_keys st i _,
      { doc1 with status := statusAfter doc1 },
      findOne_updateOne_self hf _, ?_⟩
    unfold confirmFlags at hc
    by_cases hp : (actor == doc.payer_email) = true
    · rw [if_pos hp] at hc
      simp only [Except.ok.injEq] at hc
      subst hc
      exact ⟨rfl, rfl, rfl, rfl, rfl, rfl, rfl, rfl, fun h => h⟩
    · rw [if_neg hp] at hc
      by_cases hany : (doc.recipients.any fun r => r.email == actor) = true
      · rw [if_pos hany] at hc
        simp only [Except.ok.injEq] at hc
        subst hc
        refine ⟨rfl, rfl, rfl, rfl, rfl, rfl,
          markRecipients_map_email_pct doc.recipients actor,
          markRecipients_sumPct doc.recipients actor, fun h => ?_⟩
        show |sumPct (markRecipients doc.recipients actor) - 100| ≤ pctTolerance
        rw [markRecipients_sumPct]
        exact h
      · rw [if_neg hany] at hc
        exact Except.noConfusion hc

/-- Witness for C7 at the concrete funded escrow: the payer's confirm
leaves every identity field and the percentages in place. -/
theorem C7_confirm_frame_witness :
    c7St.map Prod.fst = c2Store.map Prod.fst ∧
    ∃ d', findOne c7St 1 = some d' ∧
      d'.title = fundEsc.title ∧ d'.description = fundEsc.description ∧
      d'.payer_email = fundEsc.payer_email ∧
      d'.total_amount = fundEsc.total_amount ∧
      d'.currency = fundEsc.currency ∧ d'.chain = fundEsc.chain ∧
      d'.recipients.map (fun r => (r.email, r.percentage)) =
        fundEsc.recipients.map (fun r => (r.email, r.percentage)) ∧
      sumPct d'.recipients = sumPct fundEsc.recipients ∧
      (|sumPct fundEsc.recipients - 100| ≤ pctTolerance →
        |sumPct d'.recipients - 100| ≤ pctTolerance) :=
  C7_confirm_frame c2Store 1 "a@x.com" 7 fundEsc c7St .funded (by decide)
    (by decide)

/-- C1 (code bug): run spec §8's scenario A — create, confirm payer and
both recipients, release — and then let the payer confirm once more.
`confirm_escrow` recomputes releasability without guarding the terminal
`released` status, so the stored status is written back from `released`
to `releasable`: the confirmation after release changes the status,
where the claim requires `released` to be terminal (reject or no-op). -/
theorem C1_confirm_after_release_resurrects :
    confirm_escrow c1s0 1 "a@x.com" 1 = .ok (c1s1, .funded) ∧
    confirm_escrow c1s1 1 "b@x.com" 2 = .ok (c1s2, .funded) ∧
    confirm_escrow c1s2 1 "c@x.com" 3 = .ok (c1s3, .releasable) ∧
    release_escrow c1s3 1 = .ok (c1s4, .released) ∧
    (findOne c1s4 1).map (·.status) = some .released ∧
    confirm_escrow c1s4 1 "a@x.com" 5 = .ok (c1s5, .releasable) ∧
    (findOne c1s5 1).map (·.status) = some .releasable :=
  ⟨by decide, by decide, by decide, by decide, by decide, by decide, by decide⟩

/-- C9 (amended): when the bot token is not configured, the webhook
acknowledges the transport immediately and returns without reading or
handling the command — state unchanged, nothing sent; when the token is
configured, a delivery carrying a message either completes with exactly
one reply sent to the originating chat id and an `ok` acknowledgment, or
fails with an uncaught pydantic exception, which can only happen in the
`/pay` branch (`EmailStr` on the recipient or linked payer address, a
parsed but non-positive amount, an unknown currency token) or the
`/confirm` branch (`ConfirmRequest`'s `EmailStr` rejecting a linked
address that the raw `/link` stored unvalidated). -/
theorem C9_webhook_reply (pa : String → Option ℚ) (ie : String → Bool)
    (upd : TgUpdate) (st : BotState) (now : Nat) :
    (telegram_webhook false pa ie upd st now =
      .ok ({ ok := true, message := some "Telegram token not configured" },
        st, [])) ∧
    (∀ m, (upd.message <|> upd.edited_message) = some m →
      (∀ r st' sent,
        telegram_webhook true pa ie upd st now = .ok (r, st', sent) →
        r.ok = true ∧ sent.map Prod.fst = [m.chat_id]) ∧
      (∀ e, telegram_webhook true pa ie upd st now = .error e →
        sStartsWith (sTrim m.text) "/pay" = true ∨
          sStartsWith (sTrim m.text) "/confirm" = true)) := by
  refine ⟨rfl, fun m hm => ⟨fun r st' sent h => ?_, fun e h => ?_⟩⟩
  · rw [telegram_webhook_message pa ie upd st now m hm] at h
    exact handleMessage_ok_sends pa ie m st now r st' sent h
  · rw [telegram_webhook_message pa ie upd st now m hm] at h
    exact handleMessage_error_branch pa ie m st now e h

/-- Witness for C9 (amended): with the token set, an unrecognized
command gets exactly one reply to its chat; with the token unset, the
request is acknowledged untouched. -/
theorem C9_webhook_reply_witness :
    (({ ok := true } : WebhookResp).ok = true ∧
      ([((42 : Int), "Unknown command. Try /start")] :
        List (Int × String)).map Prod.fst = [(42 : Int)]) ∧
    (sStartsWith (sTrim "/confirm 1") "/pay" = true ∨
      sStartsWith (sTrim "/confirm 1") "/confirm" = true) ∧
    telegram_webhook false parseNatAmount simpleEmailCheck c9Upd c9Bst 3 =
      .ok ({ ok := true, message := some "Telegram token not configured" },
        c9Bst, []) :=
  ⟨((C9_webhook_reply parseNatAmount simpleEmailCheck c9Upd c9Bst 3).2
      c9Msg rfl).1
     { ok := true } c9Bst2 [((42 : Int), "Unknown command. Try /start")]
     (by decide),
   ((C9_webhook_reply parseNatAmount simpleEmailCheck c9ConfUpd
       c9BadLinked 3).2 { chat_id := 42, text := "/confirm 1" } rfl).2
     (.pydanticValidation "actor") (by decide),
   (C9_webhook_reply parseNatAmount simpleEmailCheck c9Upd c9Bst 3).1⟩

/-- Counterexample to C9 as stated: a `/pay` delivery from a linked
profile arriving while the messaging credential is unset is acknowledged
but NOT handled — no escrow is created and nothing is sent — whereas the
same delivery with the credential set creates one escrow; the webhook
returns before the interpreter runs instead of degrading only the send. -/
theorem C9_counterexample :
    telegram_webhook false parseNatAmount simpleEmailCheck c9PayUpd
        c9Linked 3 =
      .ok ({ ok := true, message := some "Telegram token not configured" },
        c9Linked, []) ∧
    c9Linked.escrows = [] ∧
    (telegram_webhook true parseNatAmount simpleEmailCheck c9PayUpd
        c9Linked 3).toOption.map
      (fun x => x.2.1.escrows.length) = some 1 :=
  ⟨rfl, rfl, by decide⟩

/-- C10: a `/pay` command with at least two argument tokens whose amount
token does not parse replies with the numeric-parse error message and
creates no escrow; the parse is checked before the linked-email
requirement, so this holds for any profile state, linked or not (only
the profile-ensuring step may touch the state, and it never writes to
the escrow collection). -/
theorem C10_pay_amount_parse_first (pa : String → Option ℚ)
    (ie : String → Bool) (upd : TgUpdate) (st : BotState) (now : Nat)
    (m : TgMessage)
    (hm : (upd.message <|> upd.edited_message) = some m)
    (hpay : sStartsWith (sTrim m.text) "/pay" = true)
    (hstart : sStartsWith (sTrim m.text) "/start" = false)
    (hlink : sStartsWith (sTrim m.text) "/link" = false)
    (hlen : 3 ≤ (wsSplit (sTrim m.text)).length)
    (hparse : pa ((wsSplit (sTrim m.text)).getD 2 "") = none) :
    telegram_webhook true pa ie upd st now =
      .ok ({ ok := true }, ensureProfile st m.chat_id m.username,
        [(m.chat_id, "Amount must be a number, e.g., 25")]) ∧
    (ensureProfile st m.chat_id m.username).escrows = st.escrows := by
  constructor
  · rw [telegram_webhook_message pa ie upd st now m hm]
    simp only [handleMessage]
    rw [if_neg (show ¬sStartsWith (sTrim m.text) "/start" = true by
          simp [hstart]),
      if_neg (show ¬sStartsWith (sTrim m.text) "/link" = true by
          simp [hlink]),
      if_pos hpay, if_pos hlen, hparse]
    rfl
  · exact ensureProfile_escrows st m.chat_id m.username

/-- Witness for C10: `/pay b@x.com abc` from a chat with no profile at
all still gets the numeric-parse reply, and the escrow collection stays
empty. -/
theorem C10_pay_amount_parse_first_witness :
    telegram_webhook true parseNatAmount simpleEmailCheck c10Upd c9Bst 3 =
      .ok ({ ok := true }, ensureProfile c9Bst 42 none,
        [((42 : Int), "Amount must be a number, e.g., 25")]) ∧
    (ensureProfile c9Bst 42 none).escrows = c9Bst.escrows :=
  C10_pay_amount_parse_first parseNatAmount simpleEmailCheck c10Upd c9Bst 3
    { chat_id := 42, text := "/pay b@x.com abc" } rfl (by decide) (by decide)
    (by decide) (by decide) (by decide)

end SplitPay
